import Mathlib

/-!
# SAA portfolio-management backend: chat/session/dispatch core

Shallow embedding of the real-time chat orchestration layer of the SAA
Flask application (`app/app.py`) and of the two assistant modules
(`app/assistants/portfolio_analyst.py`, `app/assistants/portfolio_optimizer.py`).

Modelling conventions:
* Python dict keys that may be absent are `Option` fields; `dict.get(k, d)`
  is `Option.getD`.
* `datetime.utcnow()` readings are explicit `Nat` parameters, one per call
  site, in program order; monotonicity of the wall clock is a hypothesis
  where a claim needs it.
* Exceptions are `Except`; Python float division is exact rational division
  guarded by an explicit zero test (`ZeroDivisionError`).
* Socket emits, handler invocations and persistence steps are recorded in an
  ordered action trace, so ordering claims are statements about list shape.
* The external Claude call (`client.messages.create`) and Python's opaque
  `hash` builtin are parameters of the functions that use them.
-/

namespace SAA

/-! ## Portfolio data passed to the dispatcher (app.py lines 202-218) -/

/-- One element of `portfolio_data['holdings']` as built in
`handle_chat_message`: a dict whose keys may be absent/None. -/
structure HoldingData where
  symbol : Option String
  isin : Option String
  name : Option String
  asset_type : Option String
  asset_class : Option String
  quantity : Option ℚ
  current_value : Option ℚ
deriving DecidableEq, Repr

/-- The `portfolio_data` dict built in `handle_chat_message`. -/
structure PortfolioData where
  portfolio_id : Option String
  total_value : Option ℚ
  currency : Option String
  risk_tolerance : Option String
  investment_horizon : Option Int
  holdings : List HoldingData
deriving DecidableEq, Repr

/-! ## Dispatcher payloads, events and actions (app.py lines 229-279) -/

/-- A response value flowing through `process_assistant_message`: either one
of the literal dicts written in `app.py` (string-valued fields), or the
structured result returned by an assistant handler (type parameter `α`,
passed through without inspection). -/
inductive Payload (α : Type) where
  | dict (kv : List (String × String))
  | fromHandler (r : α)
deriving DecidableEq, Repr

/-- One observable step of a dispatch, in program order: socket emits,
assistant-handler invocations, and the persistence attempt inside
`save_conversation` (with its internally-caught failure log). -/
inductive Action (α : Type) where
  | emitTyping (assistant : String)
  | emitResponse (assistant : String) (payload : Payload α) (timestamp : Nat)
  | emitError (message : String)
  | callAnalyst
  | callOptimizer
  | persistAttempt
  | logPersistError
deriving DecidableEq, Repr

/-- Whether an action is the client-visible outcome event of a dispatch:
the `assistant_response` emit or the `error` emit. -/
def isResponseOrError : Action α → Bool
  | .emitResponse _ _ _ => true
  | .emitError _ => true
  | _ => false

/-- The constraints dict built at app.py lines 252-255 before delegating to
the optimizer. -/
structure DispatchConstraints where
  risk_tolerance : String
  investment_horizon : Int
deriving DecidableEq, Repr

/-! ## Conversation store (app.py lines 282-321, 348-366) -/

/-- Content of one conversation message: the user entry stores the raw
message text, the assistant entry stores the whole response value. -/
inductive Content (α : Type) where
  | text (s : String)
  | resp (p : Payload α)
deriving DecidableEq, Repr

/-- One element of `Conversation.messages` as appended by
`save_conversation`. -/
structure Message (α : Type) where
  role : String
  content : Content α
  timestamp : Nat
deriving DecidableEq, Repr

/-- A row of the `conversations` table, restricted to the columns the core
reads and writes.  Users are identified by their session id (the app maps
session ids to user rows one-to-one via `get_or_create_user`). -/
structure Conversation (α : Type) where
  userId : String
  assistantType : String
  messages : List (Message α)
  lastMessageAt : Option Nat
deriving DecidableEq, Repr

/-- The conversations table. -/
abbrev Db (α : Type) : Type := List (Conversation α)

/-- The query at app.py lines 290-293: first conversation row matching
`(user, assistant_type)`. -/
def findConv : Db α → String → String → Option (Conversation α)
  | [], _, _ => none
  | c :: rest, sessionId, assistantType =>
      if c.userId == sessionId && c.assistantType == assistantType then some c
      else findConv rest sessionId assistantType

/-- The message list of the conversation row `save_conversation` will append
to: the stored list when the row exists, `[]` when it is created. -/
def oldMessages (db : Db α) (sessionId assistantType : String) :
    List (Message α) :=
  match findConv db sessionId assistantType with
  | some c => c.messages
  | none => []

/-- Replace the first row matching `(sessionId, assistantType)` with `c'`,
or append `c'` when no row matches (the `db.add` path). -/
def upsertConv (db : Db α) (sessionId assistantType : String)
    (c' : Conversation α) : Db α :=
  match db with
  | [] => [c']
  | c :: rest =>
      if c.userId == sessionId && c.assistantType == assistantType then
        c' :: rest
      else
        c :: upsertConv rest sessionId assistantType c'

/-- `save_conversation` (app.py lines 282-321).  The body is wrapped in a
try/except that only prints on failure, so the function never propagates an
exception.  `commitOk` is the outcome of `db.commit()`: on `False` the
SQLAlchemy session is discarded and the table is unchanged (no partial
write).  `tUser`, `tAssistant`, `tLast` are the three `datetime.utcnow()`
readings at lines 308, 313 and 317, in program order.  Returns the table
after the call and the persistence actions it performed. -/
def save_conversation (commitOk : Bool) (tUser tAssistant tLast : Nat)
    (db : Db α) (sessionId assistantType : String)
    (user_message : String) (assistant_response : Payload α) :
    Db α × List (Action α) :=
  let conv : Conversation α :=
    match findConv db sessionId assistantType with
    | some c => c
    | none => { userId := sessionId, assistantType := assistantType,
                messages := [], lastMessageAt := none }
  let messages := conv.messages ++
    [ { role := "user", content := .text user_message, timestamp := tUser },
      { role := "assistant", content := .resp assistant_response,
        timestamp := tAssistant } ]
  let conv' : Conversation α :=
    { conv with messages := messages, lastMessageAt := some tLast }
  if commitOk then
    (upsertConv db sessionId assistantType conv', [.persistAttempt])
  else
    (db, [.persistAttempt, .logPersistError])

/-- One entry of the `/api/conversation/history` response
(app.py lines 358-364). -/
structure HistoryEntry (α : Type) where
  assistant : String
  messages : List (Message α)
  last_message : Option Nat
deriving DecidableEq, Repr

/-- `get_conversation_history` (app.py lines 348-366): for every
conversation row of the user, the last 10 messages (`messages[-10:]`) in
stored order. -/
def get_conversation_history (db : Db α) (sessionId : String) :
    List (HistoryEntry α) :=
  (db.filter fun c => c.userId == sessionId).map fun conv =>
    { assistant := conv.assistantType
      messages := conv.messages.drop (conv.messages.length - 10)
      last_message := conv.lastMessageAt }

/-! ## Dispatcher (app.py lines 229-279)

`process_assistant_message` is parameterised by the two handler calls
(`analyst_assistant.analyze_portfolio`, `optimizer_assistant.optimize_portfolio`);
a handler either returns a structured value of type `α` or raises
(`Except.error` with the exception text).  The whole body runs inside a
try/except that emits an `error` event on any exception; in this flow only
the awaited handler calls can raise (`socketio.emit` and `save_conversation`
do not propagate). -/

/-- The literal no-portfolio dict for the analyst (app.py lines 243-246). -/
def analystNoPortfolio (α : Type) : Payload α :=
  .dict [("analysis", "Please select or create a portfolio first to begin analysis."),
         ("status", "no_portfolio")]

/-- The literal no-portfolio dict for the optimizer (app.py lines 258-261). -/
def optimizerNoPortfolio (α : Type) : Payload α :=
  .dict [("optimization", "Please select or create a portfolio first to begin optimization."),
         ("status", "no_portfolio")]

/-- The literal unknown-type dict (app.py line 264). -/
def unknownAssistantPayload (α : Type) : Payload α :=
  .dict [("error", "Unknown assistant type")]

/-- `process_assistant_message` (app.py lines 229-279).  `tResp` is the
`datetime.utcnow()` at the response emit (line 270); `tUser tAssistant tLast`
are the clock readings inside `save_conversation`.  Returns the action trace
in program order and the conversations table after the call. -/
def process_assistant_message
    (analystCall : PortfolioData → String → Except String α)
    (optimizerCall : PortfolioData → DispatchConstraints → String → Except String α)
    (commitOk : Bool) (tResp tUser tAssistant tLast : Nat)
    (db : Db α) (session_id assistant_type message : String)
    (portfolio_data : Option PortfolioData) :
    List (Action α) × Db α :=
  let deliver : List (Action α) → Payload α → List (Action α) × Db α :=
    fun calls response =>
      let saved := save_conversation commitOk tUser tAssistant tLast db
        session_id assistant_type message response
      (.emitTyping assistant_type :: calls
        ++ [.emitResponse assistant_type response tResp] ++ saved.2, saved.1)
  if assistant_type = "analyst" then
    match portfolio_data with
    | some pd =>
        match analystCall pd message with
        | .ok r => deliver [.callAnalyst] (.fromHandler r)
        | .error e =>
            ([.emitTyping assistant_type, .callAnalyst,
              .emitError ("Error processing message: " ++ e)], db)
    | none => deliver [] (analystNoPortfolio α)
  else if assistant_type = "optimizer" then
    match portfolio_data with
    | some pd =>
        let constraints : DispatchConstraints :=
          { risk_tolerance := pd.risk_tolerance.getD "moderate",
            investment_horizon := pd.investment_horizon.getD 5 }
        match optimizerCall pd constraints message with
        | .ok r => deliver [.callOptimizer] (.fromHandler r)
        | .error e =>
            ([.emitTyping assistant_type, .callOptimizer,
              .emitError ("Error processing message: " ++ e)], db)
    | none => deliver [] (optimizerNoPortfolio α)
  else
    deliver [] (unknownAssistantPayload α)

/-! ## Session registry (app.py lines 166-181) -/

/-- The `active_sessions` dict: transport connection id (`request.sid`) to
logical session id.  Modelled as an association list with at most the
semantics of a Python dict (assignment overwrites, `del` removes the key). -/
abbrev Registry : Type := List (String × String)

/-- Python dict lookup `active_sessions.get(sid)`. -/
def regLookup : Registry → String → Option String
  | [], _ => none
  | p :: rest, sid => if p.1 == sid then some p.2 else regLookup rest sid

/-- Python dict assignment `active_sessions[sid] = session_id`. -/
def regInsert (reg : Registry) (sid sessionId : String) : Registry :=
  match reg with
  | [] => [(sid, sessionId)]
  | p :: rest =>
      if p.1 == sid then (sid, sessionId) :: rest else p :: regInsert rest sid sessionId

/-- Python `del active_sessions[sid]`. -/
def regErase (reg : Registry) (sid : String) : Registry :=
  reg.filter fun p => p.1 != sid

/-- `handle_connect` (app.py lines 166-172): registers
`active_sessions[request.sid] = session_id` (the room join and the
`connected` emit are transport-side effects outside the registry). -/
def handle_connect (reg : Registry) (sid sessionId : String) : Registry :=
  regInsert reg sid sessionId

/-- `handle_disconnect` (app.py lines 175-181): removes the mapping only
when `request.sid` is present; otherwise the body is skipped entirely. -/
def handle_disconnect (reg : Registry) (sid : String) : Registry :=
  match regLookup reg sid with
  | some _ => regErase reg sid
  | none => reg

/-! ## Assistant modules (portfolio_analyst.py, portfolio_optimizer.py)

The Claude API call `client.messages.create(...)` is a parameter returning
either the response text (`response.content[0].text`) or an exception text.
Python's opaque `hash` builtin is a parameter `hashFn`.  Division of Python
numbers by zero raises `ZeroDivisionError`; everything inside the `try`
block is caught and turned into the failed-status dict, while the context
preparation runs before the `try` and its exceptions propagate. -/

/-- A Python exception as far as this core distinguishes them. -/
inductive PyErr where
  | zeroDivision
  | other (msg : String)
deriving DecidableEq, Repr

/-- Python division on numbers: raises `ZeroDivisionError` when the divisor
is zero (for ints and floats alike). -/
def pyDiv (a b : ℚ) : Except PyErr ℚ :=
  if b = 0 then .error .zeroDivision else .ok (a / b)

/-- Python `str(e)` for the exceptions this model distinguishes. -/
def pyErrStr : PyErr → String
  | .zeroDivision => "division by zero"
  | .other msg => msg

/-- Effectful `map` in program order: the Python `for` loop appending to
`context['holdings']`, stopping at the first raised exception. -/
def mapEx (f : β → Except PyErr γ) : List β → Except PyErr (List γ)
  | [] => .ok []
  | b :: bs => do
      let c ← f b
      let cs ← mapEx f bs
      pure (c :: cs)

/-- Effectful left fold in program order: the Python `for` loop mutating the
`allocation` dict, stopping at the first raised exception. -/
def foldEx (f : σ → β → Except PyErr σ) (init : σ) : List β → Except PyErr σ
  | [] => .ok init
  | b :: bs =>
      match f init b with
      | .error e => .error e
      | .ok s => foldEx f s bs

/-- One element of `context['holdings']` built by
`_prepare_portfolio_context` (portfolio_analyst.py lines 153-162). -/
structure HoldingContext where
  symbol : Option String
  isin : Option String
  name : Option String
  asset_type : Option String
  quantity : Option ℚ
  current_value : Option ℚ
  percentage : ℚ
deriving DecidableEq, Repr

/-- The context dict built by `_prepare_portfolio_context`
(portfolio_analyst.py lines 138-164).  `analysis_date` is the
`datetime.utcnow()` at line 148. -/
structure PortfolioContext where
  portfolio_id : Option String
  total_value : ℚ
  currency : String
  holdings : List HoldingContext
  risk_tolerance : String
  investment_horizon : Int
  analysis_date : Nat
deriving DecidableEq, Repr

/-- `PortfolioAnalystAssistant._prepare_portfolio_context`
(portfolio_analyst.py lines 138-164).  Each holding's percentage is
`(holding.get('current_value', 0) / portfolio_data.get('total_value', 1)) * 100`;
the division raises `ZeroDivisionError` when the stored `total_value` is 0. -/
def prepare_portfolio_context (tCtx : Nat) (portfolio_data : PortfolioData) :
    Except PyErr PortfolioContext := do
  let holdings ← mapEx (fun h => do
      let q ← pyDiv (h.current_value.getD 0) (portfolio_data.total_value.getD 1)
      pure { symbol := h.symbol, isin := h.isin, name := h.name,
             asset_type := h.asset_type, quantity := h.quantity,
             current_value := h.current_value,
             percentage := q * 100 : HoldingContext })
    portfolio_data.holdings
  pure { portfolio_id := portfolio_data.portfolio_id,
         total_value := portfolio_data.total_value.getD 0,
         currency := portfolio_data.currency.getD "EUR",
         holdings := holdings,
         risk_tolerance := portfolio_data.risk_tolerance.getD "moderate",
         investment_horizon := portfolio_data.investment_horizon.getD 5,
         analysis_date := tCtx }

/-- The holdings symbols, defaulted and sorted, hashed for the cache key
(`sorted([h.get('symbol', '') for h in portfolio_data.get('holdings', [])])`). -/
def sortedSymbols (portfolio_data : PortfolioData) : List String :=
  (portfolio_data.holdings.map fun h => h.symbol.getD "").mergeSort (· ≤ ·)

/-- Python `str` of an optional value (`None` prints as "None"). -/
def pyStr (o : Option String) : String :=
  match o with
  | some s => s
  | none => "None"

/-- `PortfolioAnalystAssistant._generate_cache_key`
(portfolio_analyst.py lines 189-195): portfolio id and a hash of the sorted
holding symbols. -/
def generate_cache_key (hashFn : List String → Int)
    (portfolio_data : PortfolioData) : String :=
  pyStr portfolio_data.portfolio_id ++ "_" ++ toString (hashFn (sortedSymbols portfolio_data))

/-- Analyst result value: `_parse_analysis_response` output on success
(status `success`, the raw response text, the fixed empty structured-data
dict), or the failed-status dict built in the `except` branch. -/
inductive AnalysisResult where
  | success (timestamp : Nat) (analysis : String)
  | failed (error : String) (timestamp : Nat)
deriving DecidableEq, Repr

/-- `PortfolioAnalystAssistant._parse_analysis_response`
(portfolio_analyst.py lines 166-175). -/
def parse_analysis_response (tParse : Nat) (response_text : String) :
    AnalysisResult :=
  .success tParse response_text

/-- An entry of the in-memory `analysis_cache` / `optimization_cache`. -/
structure CacheEntry (ρ : Type) where
  timestamp : Nat
  result : ρ
deriving DecidableEq, Repr

/-- The in-memory response cache of an assistant instance. -/
abbrev Cache (ρ : Type) : Type := List (String × CacheEntry ρ)

/-- Python dict assignment `self.analysis_cache[cache_key] = entry`. -/
def cacheInsert (cache : Cache ρ) (key : String) (entry : CacheEntry ρ) :
    Cache ρ :=
  match cache with
  | [] => [(key, entry)]
  | p :: rest =>
      if p.1 == key then (key, entry) :: rest else p :: cacheInsert rest key entry

/-- The prompt sent to the analyst's Claude instance: built from the
prepared context and the optional user query only (the two string templates
at portfolio_analyst.py lines 88-105; the rendering to text is injective in
these inputs and elided). -/
structure AnalystPrompt where
  context : PortfolioContext
  user_query : Option String
deriving DecidableEq, Repr

/-- `PortfolioAnalystAssistant.analyze_portfolio`
(portfolio_analyst.py lines 71-136).  `api` is the Claude call; `tParse`,
`tCache`, `tFail` are the `datetime.utcnow()` readings at lines 172, 125 and
135.  Returns the result value, the cache after the call, and the number of
external API calls issued; context-preparation exceptions (before the `try`)
propagate. -/
def analyze_portfolio (api : AnalystPrompt → Except PyErr String)
    (hashFn : List String → Int) (tCtx tParse tCache tFail : Nat)
    (cache : Cache AnalysisResult) (portfolio_data : PortfolioData)
    (user_query : Option String) :
    Except PyErr (AnalysisResult × Cache AnalysisResult × Nat) := do
  let context ← prepare_portfolio_context tCtx portfolio_data
  match api { context := context, user_query := user_query } with
  | .ok text =>
      let analysis_result := parse_analysis_response tParse text
      let cache_key := generate_cache_key hashFn portfolio_data
      pure (analysis_result,
        cacheInsert cache cache_key { timestamp := tCache, result := analysis_result }, 1)
  | .error e =>
      pure (.failed (pyErrStr e) tFail, cache, 1)

/-! ### Optimizer (portfolio_optimizer.py) -/

/-- The `constraints` dict received by `optimize_portfolio`; every key may
be absent (`.get` with a default). -/
structure ConstraintsData where
  risk_tolerance : Option String
  target_return : Option ℚ
  max_volatility : Option ℚ
  investment_horizon : Option Int
  min_allocation : Option (List (String × ℚ))
  max_allocation : Option (List (String × ℚ))
  excluded_assets : Option (List String)
  esg_preference : Option Bool
deriving DecidableEq, Repr

/-- `allocation[asset_class] += v`, initialising the key at 0 when absent
(portfolio_optimizer.py lines 181-184). -/
def allocAdd (alloc : List (String × ℚ)) (k : String) (v : ℚ) :
    List (String × ℚ) :=
  match alloc with
  | [] => [(k, v)]
  | p :: rest =>
      if p.1 == k then (p.1, p.2 + v) :: rest else p :: allocAdd rest k v

/-- `PortfolioOptimizerAssistant._calculate_current_allocation`
(portfolio_optimizer.py lines 172-186): per-asset-class percentage
accumulation with divisor `portfolio_data.get('total_value', 1)`. -/
def calculate_current_allocation (portfolio_data : PortfolioData) :
    Except PyErr (List (String × ℚ)) :=
  foldEx (fun alloc h => do
      let q ← pyDiv (h.current_value.getD 0) (portfolio_data.total_value.getD 1)
      pure (allocAdd alloc (h.asset_class.getD "other") (q * 100)))
    [] portfolio_data.holdings

/-- The context dict built by `_prepare_optimization_context`
(portfolio_optimizer.py lines 147-170). -/
structure OptimizationContext where
  total_value : ℚ
  currency : String
  current_allocation : List (String × ℚ)
  holdings : List HoldingData
  risk_tolerance : String
  target_return : Option ℚ
  max_volatility : Option ℚ
  investment_horizon : Int
  min_allocation : List (String × ℚ)
  max_allocation : List (String × ℚ)
  excluded_assets : List String
  esg_preference : Bool
deriving DecidableEq, Repr

/-- `PortfolioOptimizerAssistant._prepare_optimization_context`
(portfolio_optimizer.py lines 147-170); raises whatever
`_calculate_current_allocation` raises. -/
def prepare_optimization_context (portfolio_data : PortfolioData)
    (constraints : ConstraintsData) : Except PyErr OptimizationContext := do
  let current_allocation ← calculate_current_allocation portfolio_data
  pure { total_value := portfolio_data.total_value.getD 0,
         currency := portfolio_data.currency.getD "EUR",
         current_allocation := current_allocation,
         holdings := portfolio_data.holdings,
         risk_tolerance := constraints.risk_tolerance.getD "moderate",
         target_return := constraints.target_return,
         max_volatility := constraints.max_volatility,
         investment_horizon := constraints.investment_horizon.getD 5,
         min_allocation := constraints.min_allocation.getD [],
         max_allocation := constraints.max_allocation.getD [],
         excluded_assets := constraints.excluded_assets.getD [],
         esg_preference := constraints.esg_preference.getD false }

/-- Optimizer result value: `_parse_optimization_response` output on
success, or the failed-status dict built in the `except` branch. -/
inductive OptimizationResult where
  | success (timestamp : Nat) (optimization : String)
  | failed (error : String) (timestamp : Nat)
deriving DecidableEq, Repr

/-- `PortfolioOptimizerAssistant._parse_optimization_response`
(portfolio_optimizer.py lines 188-195). -/
def parse_optimization_response (tParse : Nat) (response_text : String) :
    OptimizationResult :=
  .success tParse response_text

/-- The prompt sent to the optimizer's Claude instance: built from the
prepared context and the optional user query only (string templates at
portfolio_optimizer.py lines 90-114). -/
structure OptimizerPrompt where
  context : OptimizationContext
  user_query : Option String
deriving DecidableEq, Repr

/-- `PortfolioOptimizerAssistant._generate_cache_key`
(portfolio_optimizer.py lines 210-218): portfolio id, a hash of the sorted
holding symbols, and a hash of the constraints. -/
def optimizer_cache_key (hashFn : List String → Int)
    (constraintsHashFn : ConstraintsData → Int)
    (portfolio_data : PortfolioData) (constraints : ConstraintsData) : String :=
  pyStr portfolio_data.portfolio_id ++ "_"
    ++ toString (hashFn (sortedSymbols portfolio_data)) ++ "_"
    ++ toString (constraintsHashFn constraints)

/-- `PortfolioOptimizerAssistant.optimize_portfolio`
(portfolio_optimizer.py lines 71-145).  Same shape as `analyze_portfolio`:
context preparation before the `try` (its exceptions propagate), exactly one
API call once the prompt is built, cache written only after a successful
call, never read. -/
def optimize_portfolio (api : OptimizerPrompt → Except PyErr String)
    (hashFn : List String → Int) (constraintsHashFn : ConstraintsData → Int)
    (tParse tCache tFail : Nat)
    (cache : Cache OptimizationResult) (portfolio_data : PortfolioData)
    (constraints : ConstraintsData) (user_query : Option String) :
    Except PyErr (OptimizationResult × Cache OptimizationResult × Nat) := do
  let context ← prepare_optimization_context portfolio_data constraints
  match api { context := context, user_query := user_query } with
  | .ok text =>
      let optimization_result := parse_optimization_response tParse text
      let cache_key := optimizer_cache_key hashFn constraintsHashFn portfolio_data constraints
      pure (optimization_result,
        cacheInsert cache cache_key { timestamp := tCache, result := optimization_result }, 1)
  | .error e =>
      pure (.failed (pyErrStr e) tFail, cache, 1)

/-! ## Helper lemmas -/

lemma except_bind_ok {ε β γ : Type} (a : β) (f : β → Except ε γ) :
    (Except.ok a : Except ε β) >>= f = f a := rfl

lemma except_bind_error {ε β γ : Type} (e : ε) (f : β → Except ε γ) :
    (Except.error e : Except ε β) >>= f = Except.error e := rfl

lemma except_pure {ε β : Type} (a : β) :
    (pure a : Except ε β) = Except.ok a := rfl

lemma except_map_ok {ε β γ : Type} (f : β → γ) (a : β) :
    Except.map f (Except.ok a : Except ε β) = Except.ok (f a) := rfl

lemma except_map_error {ε β γ : Type} (f : β → γ) (e : ε) :
    Except.map f (Except.error e : Except ε β) = Except.error e := rfl

lemma regLookup_regInsert_self (reg : Registry) (sid v : String) :
    regLookup (regInsert reg sid v) sid = some v := by
  induction reg with
  | nil => simp [regInsert, regLookup]
  | cons p rest ih =>
      by_cases h : p.1 == sid
      · simp [regInsert, h, regLookup]
      · simp [regInsert, h, regLookup, ih]

lemma regLookup_regErase_self (reg : Registry) (sid : String) :
    regLookup (regErase reg sid) sid = none := by
  induction reg with
  | nil => simp [regErase, regLookup]
  | cons p rest ih =>
      by_cases h : p.1 = sid
      · simpa [regErase, List.filter_cons, h] using ih
      · simpa [regErase, List.filter_cons, h, regLookup] using ih

lemma findConv_eq_some {db : Db α} {sid atype : String} {c : Conversation α}
    (h : findConv db sid atype = some c) :
    c.userId = sid ∧ c.assistantType = atype := by
  induction db with
  | nil => simp [findConv] at h
  | cons d rest ih =>
      by_cases hd : d.userId == sid && d.assistantType == atype
      · rw [findConv, if_pos hd] at h
        cases h
        simpa using hd
      · rw [findConv, if_neg hd] at h
        exact ih h

lemma findConv_upsert_self (db : Db α) (sid atype : String)
    (c' : Conversation α) (h1 : c'.userId = sid) (h2 : c'.assistantType = atype) :
    findConv (upsertConv db sid atype c') sid atype = some c' := by
  induction db with
  | nil => simp [upsertConv, findConv, h1, h2]
  | cons d rest ih =>
      by_cases hd : d.userId == sid && d.assistantType == atype
      · simp [upsertConv, hd, findConv, h1, h2]
      · simp [upsertConv, hd, findConv, ih]

/-- The committed write of `save_conversation`: the matching row afterwards
holds the old messages plus the user/assistant pair and the third clock
reading as `lastMessageAt`. -/
lemma save_conversation_true (db : Db α) (sid atype umsg : String)
    (resp : Payload α) (tUser tAssistant tLast : Nat) :
    findConv (save_conversation true tUser tAssistant tLast db sid atype umsg resp).1
        sid atype
      = some { userId := sid, assistantType := atype,
               messages := oldMessages db sid atype ++
                 [ { role := "user", content := .text umsg, timestamp := tUser },
                   { role := "assistant", content := .resp resp, timestamp := tAssistant } ],
               lastMessageAt := some tLast } := by
  unfold save_conversation oldMessages
  cases hfc : findConv db sid atype with
  | some c =>
      obtain ⟨h1, h2⟩ := findConv_eq_some hfc
      simpa [h1, h2] using
        findConv_upsert_self db sid atype _ (by simp [h1]) (by simp [h2])
  | none =>
      simpa using findConv_upsert_self db sid atype _ rfl rfl

/-! ## Claims -/

/-- **C8**: for every transport id, `handle_connect` then `handle_disconnect`
leaves the session registry with no entry for that id, and
`handle_disconnect` on an id absent from the registry raises no error and
changes nothing. -/
theorem claim_C8_registry_connect_disconnect (reg : Registry)
    (sid sessionId : String) :
    regLookup (handle_disconnect (handle_connect reg sid sessionId) sid) sid = none
    ∧ (regLookup reg sid = none → handle_disconnect reg sid = reg) := by
  constructor
  · unfold handle_connect handle_disconnect
    rw [regLookup_regInsert_self]
    exact regLookup_regErase_self _ _
  · intro h
    unfold handle_disconnect
    rw [h]

theorem claim_C8_witness :
    regLookup (handle_disconnect (handle_connect [("a", "s0")] "t1" "s1") "t1") "t1" = none
    ∧ handle_disconnect [("a", "s0")] "t1" = [("a", "s0")] :=
  ⟨(claim_C8_registry_connect_disconnect [("a", "s0")] "t1" "s1").1,
   (claim_C8_registry_connect_disconnect [("a", "s0")] "t1" "s1").2 (by decide)⟩

/-- **C1**: dispatching either known assistant type with an absent portfolio
context emits the fixed `no_portfolio` payload for that type (independent of
the message, which is universally quantified) and performs zero handler
invocations; the trace is exactly typing, response, persistence. -/
theorem claim_C1_no_portfolio_short_circuit {α : Type}
    (analystCall : PortfolioData → String → Except String α)
    (optimizerCall : PortfolioData → DispatchConstraints → String → Except String α)
    (commitOk : Bool) (tResp tUser tAssistant tLast : Nat)
    (db : Db α) (session_id message : String) :
    ((process_assistant_message analystCall optimizerCall commitOk tResp tUser
        tAssistant tLast db session_id "analyst" message none).1
      = [.emitTyping "analyst", .emitResponse "analyst" (analystNoPortfolio α) tResp,
         .persistAttempt] ++ (if commitOk then [] else [.logPersistError])
     ∧ Action.callAnalyst ∉ (process_assistant_message analystCall optimizerCall commitOk
         tResp tUser tAssistant tLast db session_id "analyst" message none).1
     ∧ Action.callOptimizer ∉ (process_assistant_message analystCall optimizerCall commitOk
         tResp tUser tAssistant tLast db session_id "analyst" message none).1)
    ∧ ((process_assistant_message analystCall optimizerCall commitOk tResp tUser
        tAssistant tLast db session_id "optimizer" message none).1
      = [.emitTyping "optimizer", .emitResponse "optimizer" (optimizerNoPortfolio α) tResp,
         .persistAttempt] ++ (if commitOk then [] else [.logPersistError])
     ∧ Action.callAnalyst ∉ (process_assistant_message analystCall optimizerCall commitOk
         tResp tUser tAssistant tLast db session_id "optimizer" message none).1
     ∧ Action.callOptimizer ∉ (process_assistant_message analystCall optimizerCall commitOk
         tResp tUser tAssistant tLast db session_id "optimizer" message none).1) := by
  cases commitOk <;>
    simp [process_assistant_message, save_conversation]

/-- **C2**: for every assistant type outside `{analyst, optimizer}`, no
handler is ever invoked and the session receives the error-kind payload
`{'error': 'Unknown assistant type'}` immediately, with no external call in
the trace. -/
theorem claim_C2_unknown_assistant_type {α : Type}
    (analystCall : PortfolioData → String → Except String α)
    (optimizerCall : PortfolioData → DispatchConstraints → String → Except String α)
    (commitOk : Bool) (tResp tUser tAssistant tLast : Nat)
    (db : Db α) (session_id assistant_type message : String)
    (portfolio_data : Option PortfolioData)
    (h1 : assistant_type ≠ "analyst") (h2 : assistant_type ≠ "optimizer") :
    (process_assistant_message analystCall optimizerCall commitOk tResp tUser
        tAssistant tLast db session_id assistant_type message portfolio_data).1
      = [.emitTyping assistant_type,
         .emitResponse assistant_type (unknownAssistantPayload α) tResp,
         .persistAttempt] ++ (if commitOk then [] else [.logPersistError])
    ∧ Action.callAnalyst ∉ (process_assistant_message analystCall optimizerCall commitOk
        tResp tUser tAssistant tLast db session_id assistant_type message portfolio_data).1
    ∧ Action.callOptimizer ∉ (process_assistant_message analystCall optimizerCall commitOk
        tResp tUser tAssistant tLast db session_id assistant_type message portfolio_data).1 := by
  cases commitOk <;>
    simp [process_assistant_message, save_conversation, h1, h2]

theorem claim_C2_witness :
    (process_assistant_message (α := Unit) (fun _ _ => .ok ()) (fun _ _ _ => .ok ())
        true 0 0 0 0 [] "s" "bogus" "hi" none).1
      = [.emitTyping "bogus", .emitResponse "bogus" (unknownAssistantPayload Unit) 0,
         .persistAttempt] ++ (if true then [] else [.logPersistError])
    ∧ Action.callAnalyst ∉ (process_assistant_message (α := Unit) (fun _ _ => .ok ())
        (fun _ _ _ => .ok ()) true 0 0 0 0 [] "s" "bogus" "hi" none).1
    ∧ Action.callOptimizer ∉ (process_assistant_message (α := Unit) (fun _ _ => .ok ())
        (fun _ _ _ => .ok ()) true 0 0 0 0 [] "s" "bogus" "hi" none).1 :=
  claim_C2_unknown_assistant_type _ _ true 0 0 0 0 [] "s" "bogus" "hi" none
    (by decide) (by decide)

/-- **C6**: for every single dispatch, the typing notification tagged with
the assistant type is the first action of the trace — hence it precedes the
response/error event and any handler invocation — and the trace contains
exactly one response-or-error event. -/
theorem claim_C6_typing_precedes_outcome {α : Type}
    (analystCall : PortfolioData → String → Except String α)
    (optimizerCall : PortfolioData → DispatchConstraints → String → Except String α)
    (commitOk : Bool) (tResp tUser tAssistant tLast : Nat)
    (db : Db α) (session_id assistant_type message : String)
    (portfolio_data : Option PortfolioData) :
    (process_assistant_message analystCall optimizerCall commitOk tResp tUser
        tAssistant tLast db session_id assistant_type message portfolio_data).1.head?
      = some (.emitTyping assistant_type)
    ∧ ((process_assistant_message analystCall optimizerCall commitOk tResp tUser
        tAssistant tLast db session_id assistant_type message portfolio_data).1.filter
          (fun a => isResponseOrError a)).length = 1 := by
  by_cases h1 : assistant_type = "analyst"
  · cases portfolio_data with
    | some pd =>
        cases hr : analystCall pd message with
        | ok r =>
            cases commitOk <;>
              simp [process_assistant_message, save_conversation, h1, hr, isResponseOrError]
        | error e =>
            simp [process_assistant_message, h1, hr, isResponseOrError]
    | none =>
        cases commitOk <;>
          simp [process_assistant_message, save_conversation, h1, isResponseOrError]
  · by_cases h2 : assistant_type = "optimizer"
    · cases portfolio_data with
      | some pd =>
          cases hr : optimizerCall pd
              { risk_tolerance := pd.risk_tolerance.getD "moderate",
                investment_horizon := pd.investment_horizon.getD 5 } message with
          | ok r =>
              cases commitOk <;>
                simp [process_assistant_message, save_conversation, h1, h2, hr,
                  isResponseOrError]
          | error e =>
              simp [process_assistant_message, h1, h2, hr, isResponseOrError]
      | none =>
          cases commitOk <;>
            simp [process_assistant_message, save_conversation, h1, h2, isResponseOrError]
    · cases commitOk <;>
        simp [process_assistant_message, save_conversation, h1, h2, isResponseOrError]

/-- **C7**: when the invoked handler returns successfully (both assistant
types), the response event is emitted before the persistence attempt, no
error event ever appears in the trace, and a persistence failure only adds a
log action and leaves the conversations table unchanged — it never alters
the already-delivered response. -/
theorem claim_C7_persistence_decoupled {α : Type}
    (analystCall : PortfolioData → String → Except String α)
    (optimizerCall : PortfolioData → DispatchConstraints → String → Except String α)
    (commitOk : Bool) (tResp tUser tAssistant tLast : Nat)
    (db : Db α) (session_id message : String) (pd : PortfolioData) (r r' : α)
    (hA : analystCall pd message = .ok r)
    (hO : optimizerCall pd
        { risk_tolerance := pd.risk_tolerance.getD "moderate",
          investment_horizon := pd.investment_horizon.getD 5 } message = .ok r') :
    ((process_assistant_message analystCall optimizerCall commitOk tResp tUser
        tAssistant tLast db session_id "analyst" message (some pd)).1
      = [.emitTyping "analyst", .callAnalyst,
         .emitResponse "analyst" (.fromHandler r) tResp,
         .persistAttempt] ++ (if commitOk then [] else [.logPersistError])
     ∧ (∀ m, Action.emitError m ∉ (process_assistant_message analystCall optimizerCall
         commitOk tResp tUser tAssistant tLast db session_id "analyst" message (some pd)).1)
     ∧ (commitOk = false → (process_assistant_message analystCall optimizerCall commitOk
         tResp tUser tAssistant tLast db session_id "analyst" message (some pd)).2 = db))
    ∧ ((process_assistant_message analystCall optimizerCall commitOk tResp tUser
        tAssistant tLast db session_id "optimizer" message (some pd)).1
      = [.emitTyping "optimizer", .callOptimizer,
         .emitResponse "optimizer" (.fromHandler r') tResp,
         .persistAttempt] ++ (if commitOk then [] else [.logPersistError])
     ∧ (∀ m, Action.emitError m ∉ (process_assistant_message analystCall optimizerCall
         commitOk tResp tUser tAssistant tLast db session_id "optimizer" message (some pd)).1)
     ∧ (commitOk = false → (process_assistant_message analystCall optimizerCall commitOk
         tResp tUser tAssistant tLast db session_id "optimizer" message (some pd)).2 = db)) := by
  cases commitOk <;>
    simp [process_assistant_message, save_conversation, hA, hO]

theorem claim_C7_witness :
    (process_assistant_message (α := Unit) (fun _ _ => .ok ()) (fun _ _ _ => .ok ())
        false 0 0 0 0 [] "s" "analyst" "hi"
        (some ⟨none, none, none, none, none, []⟩)).1
      = [.emitTyping "analyst", .callAnalyst,
         .emitResponse "analyst" (.fromHandler ()) 0,
         .persistAttempt] ++ (if false then [] else [.logPersistError])
    ∧ (process_assistant_message (α := Unit) (fun _ _ => .ok ()) (fun _ _ _ => .ok ())
        false 0 0 0 0 [] "s" "analyst" "hi"
        (some ⟨none, none, none, none, none, []⟩)).2 = [] := by
  have h := claim_C7_persistence_decoupled (α := Unit) (fun _ _ => .ok ())
    (fun _ _ _ => .ok ()) false 0 0 0 0 [] "s" "hi"
    ⟨none, none, none, none, none, []⟩ () () rfl rfl
  exact ⟨h.1.1, h.1.2.2 rfl⟩

/-- **C3**: a committed `save_conversation` extends the `(user, assistant
type)` conversation by exactly the user entry followed by the assistant
entry (message count +2, roles in that order, timestamps non-decreasing
under a monotone clock), and the append is atomic: a failed commit leaves
the table exactly as it was. -/
theorem claim_C3_append_exchange {α : Type} (db : Db α)
    (sid atype umsg : String) (resp : Payload α) (tUser tAssistant tLast : Nat)
    (hmono : tUser ≤ tAssistant) :
    (∃ conv',
      findConv (save_conversation true tUser tAssistant tLast db sid atype umsg resp).1
          sid atype = some conv'
      ∧ conv'.messages = oldMessages db sid atype ++
          [ { role := "user", content := .text umsg, timestamp := tUser },
            { role := "assistant", content := .resp resp, timestamp := tAssistant } ]
      ∧ conv'.messages.length = (oldMessages db sid atype).length + 2
      ∧ tUser ≤ tAssistant)
    ∧ (save_conversation false tUser tAssistant tLast db sid atype umsg resp).1 = db := by
  refine ⟨⟨_, save_conversation_true db sid atype umsg resp tUser tAssistant tLast,
    rfl, by simp, hmono⟩, ?_⟩
  simp [save_conversation]

theorem claim_C3_witness :
    (∃ conv',
      findConv (save_conversation (α := Unit) true 3 4 5 [] "s" "analyst" "hi"
          (.dict [("status", "no_portfolio")])).1 "s" "analyst" = some conv'
      ∧ conv'.messages = oldMessages (α := Unit) [] "s" "analyst" ++
          [ { role := "user", content := .text "hi", timestamp := 3 },
            { role := "assistant",
              content := .resp (.dict [("status", "no_portfolio")]), timestamp := 4 } ]
      ∧ conv'.messages.length = (oldMessages (α := Unit) [] "s" "analyst").length + 2
      ∧ 3 ≤ 4)
    ∧ (save_conversation (α := Unit) false 3 4 5 [] "s" "analyst" "hi"
        (.dict [("status", "no_portfolio")])).1 = [] :=
  claim_C3_append_exchange [] "s" "analyst" "hi" (.dict [("status", "no_portfolio")])
    3 4 5 (by decide)

/-- **C5** (counterexample): `save_conversation` sets `last_message_at` from
a third `datetime.utcnow()` reading (app.py line 317), not from the
assistant entry's timestamp (line 313).  With clock readings 0, 1, 2 the
stored row has `lastMessageAt = 2` while its assistant entry carries
timestamp 1, so the claimed equality fails. -/
theorem claim_C5_counterexample :
    ((findConv (save_conversation (α := Unit) true 0 1 2 [] "s" "analyst" "hi"
        (.dict [])).1 "s" "analyst").map fun c =>
      (c.lastMessageAt, c.messages.getLast?.map Message.timestamp))
      = some (some 2, some 1)
    ∧ (some 2 : Option Nat) ≠ some 1 := by
  constructor
  · decide
  · decide

/-- **C5** (amended): after a completed `save_conversation`, `lastMessageAt`
equals the third clock reading, taken after the assistant entry's timestamp;
under a monotone clock it is at least that entry's timestamp (equal only
when the clock does not advance between the two readings). -/
theorem claim_C5_last_message_at {α : Type} (db : Db α)
    (sid atype umsg : String) (resp : Payload α) (tUser tAssistant tLast : Nat)
    (hmono : tAssistant ≤ tLast) :
    ∃ conv',
      findConv (save_conversation true tUser tAssistant tLast db sid atype umsg resp).1
          sid atype = some conv'
      ∧ conv'.lastMessageAt = some tLast
      ∧ conv'.messages.getLast?
          = some { role := "assistant", content := .resp resp, timestamp := tAssistant }
      ∧ tAssistant ≤ tLast := by
  refine ⟨_, save_conversation_true db sid atype umsg resp tUser tAssistant tLast,
    rfl, ?_, hmono⟩
  simp

theorem claim_C5_witness :
    ∃ conv',
      findConv (save_conversation (α := Unit) true 0 1 2 [] "s" "optimizer" "hi"
          (.dict [])).1 "s" "optimizer" = some conv'
      ∧ conv'.lastMessageAt = some 2
      ∧ conv'.messages.getLast?
          = some { role := "assistant", content := .resp (.dict []), timestamp := 1 }
      ∧ 1 ≤ 2 :=
  claim_C5_last_message_at [] "s" "optimizer" "hi" (.dict []) 0 1 2 (by decide)

/-- **C4**: every entry of `get_conversation_history` carries at most 10
messages; they are a suffix of the stored conversation (exactly 10 when more
than 10 exist), so when the stored list is chronologically ordered the
returned window is chronologically ordered and every omitted message is no
newer than every returned one. -/
theorem claim_C4_history_window {α : Type} (db : Db α) (sid : String)
    (e : HistoryEntry α) (he : e ∈ get_conversation_history db sid) :
    e.messages.length ≤ 10
    ∧ ∃ conv, conv ∈ db ∧ conv.userId = sid ∧ e.assistant = conv.assistantType
      ∧ conv.messages = conv.messages.take (conv.messages.length - 10) ++ e.messages
      ∧ (10 ≤ conv.messages.length → e.messages.length = 10)
      ∧ (conv.messages.Pairwise (fun m m' => m.timestamp ≤ m'.timestamp) →
          e.messages.Pairwise (fun m m' => m.timestamp ≤ m'.timestamp)
          ∧ ∀ m ∈ conv.messages.take (conv.messages.length - 10),
              ∀ m' ∈ e.messages, m.timestamp ≤ m'.timestamp) := by
  simp only [get_conversation_history, List.mem_map, List.mem_filter] at he
  obtain ⟨conv, ⟨hmem, huid⟩, rfl⟩ := he
  refine ⟨by simp [List.length_drop]; omega, conv, hmem, by simpa using huid, rfl,
    List.take_append_drop _ _ |>.symm, by simp [List.length_drop]; omega, ?_⟩
  intro hsorted
  have hdecomp := List.take_append_drop (conv.messages.length - 10) conv.messages
  rw [← hdecomp] at hsorted
  obtain ⟨-, hdrop, hcross⟩ := List.pairwise_append.mp hsorted
  exact ⟨hdrop, hcross⟩

theorem claim_C4_witness :
    (({ assistant := "analyst",
        messages := ((List.range 12).map fun i =>
          ({ role := "user", content := .text "", timestamp := i } : Message Unit)).drop 2,
        last_message := some 11 } : HistoryEntry Unit)).messages.length ≤ 10 :=
  (claim_C4_history_window
    [ { userId := "u", assistantType := "analyst",
        messages := (List.range 12).map fun i =>
          { role := "user", content := .text "", timestamp := i },
        lastMessageAt := some 11 } ]
    "u" _ (by decide)).1

/-- **C9**: neither assistant ever reads its response cache: for any two
cache contents the returned value and the number of external API calls are
identical; whenever the function returns (rather than raising during context
preparation) exactly one external call was issued, and after a successful
call the cache is written under the key derived from the portfolio id and
the hash of the sorted holding symbols. -/
theorem claim_C9_cache_never_read
    (api : AnalystPrompt → Except PyErr String)
    (oapi : OptimizerPrompt → Except PyErr String)
    (hashFn : List String → Int) (constraintsHashFn : ConstraintsData → Int)
    (tCtx tParse tCache tFail : Nat)
    (pd : PortfolioData) (q : Option String) (constraints : ConstraintsData)
    (c1 c2 : Cache AnalysisResult) (d1 d2 : Cache OptimizationResult) :
    ((analyze_portfolio api hashFn tCtx tParse tCache tFail c1 pd q).map
        fun o => (o.1, o.2.2))
      = ((analyze_portfolio api hashFn tCtx tParse tCache tFail c2 pd q).map
        fun o => (o.1, o.2.2))
    ∧ (∀ r c' n, analyze_portfolio api hashFn tCtx tParse tCache tFail c1 pd q
        = .ok (r, c', n) → n = 1)
    ∧ (∀ ctx text, prepare_portfolio_context tCtx pd = .ok ctx →
        api { context := ctx, user_query := q } = .ok text →
        analyze_portfolio api hashFn tCtx tParse tCache tFail c1 pd q
          = .ok (parse_analysis_response tParse text,
              cacheInsert c1 (generate_cache_key hashFn pd)
                { timestamp := tCache, result := parse_analysis_response tParse text }, 1))
    ∧ ((optimize_portfolio oapi hashFn constraintsHashFn tParse tCache tFail d1
          pd constraints q).map fun o => (o.1, o.2.2))
      = ((optimize_portfolio oapi hashFn constraintsHashFn tParse tCache tFail d2
          pd constraints q).map fun o => (o.1, o.2.2))
    ∧ (∀ r d' n, optimize_portfolio oapi hashFn constraintsHashFn tParse tCache tFail d1
        pd constraints q = .ok (r, d', n) → n = 1)
    ∧ (∀ ctx text, prepare_optimization_context pd constraints = .ok ctx →
        oapi { context := ctx, user_query := q } = .ok text →
        optimize_portfolio oapi hashFn constraintsHashFn tParse tCache tFail d1
            pd constraints q
          = .ok (parse_optimization_response tParse text,
              cacheInsert d1 (optimizer_cache_key hashFn constraintsHashFn pd constraints)
                { timestamp := tCache, result := parse_optimization_response tParse text },
              1)) := by
  refine ⟨?_, ?_, ?_, ?_, ?_, ?_⟩
  · cases hp : prepare_portfolio_context tCtx pd with
    | error e => simp [analyze_portfolio, hp, except_bind_ok, except_bind_error, except_pure, except_map_ok, except_map_error]
    | ok ctx =>
        cases ha : api { context := ctx, user_query := q } with
        | ok text => simp [analyze_portfolio, hp, ha, except_bind_ok, except_bind_error, except_pure, except_map_ok, except_map_error]
        | error e => simp [analyze_portfolio, hp, ha, except_bind_ok, except_bind_error, except_pure, except_map_ok, except_map_error]
  · intro r c' n h
    cases hp : prepare_portfolio_context tCtx pd with
    | error e => simp [analyze_portfolio, hp, except_bind_ok, except_bind_error, except_pure, except_map_ok, except_map_error] at h
    | ok ctx =>
        cases ha : api { context := ctx, user_query := q } with
        | ok text => simp [analyze_portfolio, hp, ha, except_bind_ok, except_bind_error, except_pure, except_map_ok, except_map_error] at h; exact h.2.2.symm
        | error e => simp [analyze_portfolio, hp, ha, except_bind_ok, except_bind_error, except_pure, except_map_ok, except_map_error] at h; exact h.2.2.symm
  · intro ctx text hp ha
    simp [analyze_portfolio, hp, ha, except_bind_ok, except_bind_error, except_pure, except_map_ok, except_map_error]
  · cases hp : prepare_optimization_context pd constraints with
    | error e => simp [optimize_portfolio, hp, except_bind_ok, except_bind_error, except_pure, except_map_ok, except_map_error]
    | ok ctx =>
        cases ha : oapi { context := ctx, user_query := q } with
        | ok text => simp [optimize_portfolio, hp, ha, except_bind_ok, except_bind_error, except_pure, except_map_ok, except_map_error]
        | error e => simp [optimize_portfolio, hp, ha, except_bind_ok, except_bind_error, except_pure, except_map_ok, except_map_error]
  · intro r d' n h
    cases hp : prepare_optimization_context pd constraints with
    | error e => simp [optimize_portfolio, hp, except_bind_ok, except_bind_error, except_pure, except_map_ok, except_map_error] at h
    | ok ctx =>
        cases ha : oapi { context := ctx, user_query := q } with
        | ok text => simp [optimize_portfolio, hp, ha, except_bind_ok, except_bind_error, except_pure, except_map_ok, except_map_error] at h; exact h.2.2.symm
        | error e => simp [optimize_portfolio, hp, ha, except_bind_ok, except_bind_error, except_pure, except_map_ok, except_map_error] at h; exact h.2.2.symm
  · intro ctx text hp ha
    simp [optimize_portfolio, hp, ha, except_bind_ok, except_bind_error, except_pure, except_map_ok, except_map_error]

theorem claim_C9_witness :
    analyze_portfolio (fun _ => .ok "text") (fun _ => 0) 0 0 0 0 []
        ⟨none, none, none, none, none, []⟩ none
      = .ok (parse_analysis_response 0 "text",
          cacheInsert [] (generate_cache_key (fun _ => 0) ⟨none, none, none, none, none, []⟩)
            { timestamp := 0, result := parse_analysis_response 0 "text" }, 1)
    ∧ optimize_portfolio (fun _ => .ok "opt") (fun _ => 0) (fun _ => 0) 0 0 0 []
        ⟨none, none, none, none, none, []⟩
        ⟨none, none, none, none, none, none, none, none⟩ none
      = .ok (parse_optimization_response 0 "opt",
          cacheInsert []
            (optimizer_cache_key (fun _ => 0) (fun _ => 0)
              ⟨none, none, none, none, none, []⟩
              ⟨none, none, none, none, none, none, none, none⟩)
            { timestamp := 0, result := parse_optimization_response 0 "opt" }, 1) := by
  have h := claim_C9_cache_never_read (fun _ => .ok "text") (fun _ => .ok "opt")
    (fun _ => 0) (fun _ => 0) 0 0 0 0 ⟨none, none, none, none, none, []⟩ none
    ⟨none, none, none, none, none, none, none, none⟩ [] [] [] []
  exact ⟨h.2.2.1 _ "text" rfl rfl, h.2.2.2.2.2 _ "opt" rfl rfl⟩

/-- Context preparation with divisor 1 (the `total_value` key absent): the
per-holding loop never raises and each percentage is
`current_value / 1 * 100`. -/
lemma mapEx_holdings_div_one (l : List HoldingData) :
    mapEx (fun hd => do
        let q ← pyDiv (hd.current_value.getD 0) ((1 : ℚ))
        pure ({ symbol := hd.symbol, isin := hd.isin, name := hd.name,
                asset_type := hd.asset_type, quantity := hd.quantity,
                current_value := hd.current_value,
                percentage := q * 100 } : HoldingContext)) l
      = .ok (l.map fun hd =>
          { symbol := hd.symbol, isin := hd.isin, name := hd.name,
            asset_type := hd.asset_type, quantity := hd.quantity,
            current_value := hd.current_value,
            percentage := hd.current_value.getD 0 / 1 * 100 }) := by
  induction l with
  | nil => simp [mapEx]
  | cons hd t ih =>
      rw [mapEx, ih]
      simp [pyDiv, except_bind_ok, except_pure]

lemma prepare_portfolio_context_total_value_none (tCtx : Nat)
    (pd : PortfolioData) (h : pd.total_value = none) :
    prepare_portfolio_context tCtx pd
      = .ok { portfolio_id := pd.portfolio_id, total_value := 0,
              currency := pd.currency.getD "EUR",
              holdings := pd.holdings.map fun hd =>
                { symbol := hd.symbol, isin := hd.isin, name := hd.name,
                  asset_type := hd.asset_type, quantity := hd.quantity,
                  current_value := hd.current_value,
                  percentage := hd.current_value.getD 0 / 1 * 100 },
              risk_tolerance := pd.risk_tolerance.getD "moderate",
              investment_horizon := pd.investment_horizon.getD 5,
              analysis_date := tCtx } := by
  unfold prepare_portfolio_context
  rw [h]
  simp only [Option.getD_none]
  rw [mapEx_holdings_div_one]
  rfl

lemma prepare_portfolio_context_total_value_zero (tCtx : Nat)
    (pd : PortfolioData) (h : pd.total_value = some 0) (hne : pd.holdings ≠ []) :
    prepare_portfolio_context tCtx pd = .error .zeroDivision := by
  cases hl : pd.holdings with
  | nil => exact absurd hl hne
  | cons hd t =>
      unfold prepare_portfolio_context
      rw [hl, h]
      simp [mapEx, pyDiv, Option.getD_some, except_bind_error, except_bind_ok]

lemma calculate_current_allocation_zero (pd : PortfolioData)
    (h : pd.total_value = some 0) (hne : pd.holdings ≠ []) :
    calculate_current_allocation pd = .error .zeroDivision := by
  cases hl : pd.holdings with
  | nil => exact absurd hl hne
  | cons hd t =>
      unfold calculate_current_allocation
      rw [hl, h]
      simp [foldEx, pyDiv, Option.getD_some, except_bind_error, except_bind_ok]

lemma foldEx_allocAdd_one (l : List HoldingData) : ∀ init : List (String × ℚ),
    ∃ out, foldEx (fun alloc hd => do
        let q ← pyDiv (hd.current_value.getD 0) ((1 : ℚ))
        pure (allocAdd alloc (hd.asset_class.getD "other") (q * 100))) init l
      = .ok out := by
  induction l with
  | nil => exact fun init => ⟨init, rfl⟩
  | cons hd t ih =>
      intro init
      obtain ⟨out, hout⟩ := ih (allocAdd init (hd.asset_class.getD "other")
        (hd.current_value.getD 0 / 1 * 100))
      refine ⟨out, ?_⟩
      rw [foldEx]
      simpa [pyDiv, except_bind_ok, except_pure] using hout

lemma calculate_current_allocation_total_value_none (pd : PortfolioData)
    (h : pd.total_value = none) :
    ∃ alloc, calculate_current_allocation pd = .ok alloc := by
  unfold calculate_current_allocation
  rw [h]
  simp only [Option.getD_none]
  exact foldEx_allocAdd_one pd.holdings []

/-- **C10**: with the `total_value` key present and equal to 0 and a
non-empty holdings list, both the analyst's per-holding percentage loop and
the optimizer's allocation loop raise `ZeroDivisionError`; the fallback
divisor 1 takes effect only when the key is absent, in which case both
computations succeed and each percentage is `current_value / 1 * 100`. -/
theorem claim_C10_zero_total_value_division (pd : PortfolioData) (tCtx : Nat) :
    (pd.total_value = some 0 → pd.holdings ≠ [] →
      prepare_portfolio_context tCtx pd = .error .zeroDivision
      ∧ calculate_current_allocation pd = .error .zeroDivision)
    ∧ (pd.total_value = none →
      (∃ ctx, prepare_portfolio_context tCtx pd = .ok ctx
        ∧ ctx.holdings.map HoldingContext.percentage
            = pd.holdings.map fun hd => hd.current_value.getD 0 / 1 * 100)
      ∧ ∃ alloc, calculate_current_allocation pd = .ok alloc) := by
  refine ⟨fun h hne => ⟨prepare_portfolio_context_total_value_zero tCtx pd h hne,
      calculate_current_allocation_zero pd h hne⟩,
    fun h => ⟨?_, calculate_current_allocation_total_value_none pd h⟩⟩
  refine ⟨_, prepare_portfolio_context_total_value_none tCtx pd h, ?_⟩
  simp [List.map_map, Function.comp]

theorem claim_C10_witness :
    prepare_portfolio_context 0
        ⟨none, some 0, none, none, none, [⟨none, none, none, none, none, none, none⟩]⟩
      = .error .zeroDivision
    ∧ calculate_current_allocation
        ⟨none, some 0, none, none, none, [⟨none, none, none, none, none, none, none⟩]⟩
      = .error .zeroDivision :=
  (claim_C10_zero_total_value_division
    ⟨none, some 0, none, none, none, [⟨none, none, none, none, none, none, none⟩]⟩ 0).1
    rfl (List.cons_ne_nil _ _)

end SAA
